import Mathlib

/-!
Shallow embedding of the cluster-lifecycle orchestrator of
`kind_cluster_setup` (file `src/kind_cluster_setup/cluster/kind_cluster.py`
and the command abstractions in `src/kind_cluster_setup/core/`).

Python exceptions become an explicit error type, stateful methods become
pure functions over an explicit environment (the answers the external
tools would give), and the self-mutating fields (`http_port`, `_created`,
…) are threaded as state.
-/

namespace KindClusterSetup

/-- The exception classes used by `kind_cluster.py` and `core/command.py`,
as a tagged error type carrying the message. -/
inductive PyErr where
  | dockerNotRunning (msg : String)
  | kindNotInstalled (msg : String)
  | clusterOperation (msg : String)
  | commandExecution (msg : String)
  | valueError (msg : String)
  | other (msg : String)
deriving DecidableEq, Repr

/-- `CommandResult` from `core/command.py`: returncode, stdout, stderr. -/
structure CommandResult where
  returncode : Int
  stdout : String
  stderr : String
deriving DecidableEq, Repr

/-- `CommandResult.success`: derived predicate `returncode == 0`. -/
def CommandResult.success (r : CommandResult) : Bool :=
  r.returncode == 0

/-! ## The retry decorator (`retry` in `kind_cluster.py`, lines 46-87)

The decorated function is modelled by the sequence of outcomes its
successive invocations would produce (`outcomes n` is what the `n`-th
call, counting from 1, does).  The wrapper's observable behaviour is the
final outcome, the number of invocations and the list of sleeps. -/

/-- What a call of the retry wrapper can end in: the wrapped value, a
re-raised exception, or Python's implicit `None` when the loop body never
runs (`max_attempts = 0`). -/
inductive RetryOutcome (T : Type) where
  | ok (t : T)
  | raised (e : PyErr)
  | noneReturned
deriving DecidableEq, Repr

/-- Observable trace of one call of a retry-wrapped function: outcome,
number of invocations of the wrapped function, sleeps in order. -/
structure RetryTrace (T : Type) where
  outcome : RetryOutcome T
  calls : Nat
  sleeps : List ℚ
deriving DecidableEq, Repr

/-- The `while attempt <= max_attempts` loop of the decorator.
`remaining` is `max_attempts - attempt + 1`; `retryable e` is membership
of `e` in the `exceptions` tuple (a non-member is not caught and
propagates at once). -/
def retryAux {T : Type} (outcomes : Nat → Except PyErr T) (retryable : PyErr → Bool)
    (backoff : ℚ) : Nat → Nat → ℚ → Nat → List ℚ → RetryTrace T
  | 0, _, _, calls, sleeps => ⟨.noneReturned, calls, sleeps.reverse⟩
  | remaining + 1, attempt, currentDelay, calls, sleeps =>
    match outcomes attempt with
    | .ok t => ⟨.ok t, calls + 1, sleeps.reverse⟩
    | .error e =>
      if retryable e = false then
        ⟨.raised e, calls + 1, sleeps.reverse⟩
      else if remaining = 0 then
        ⟨.raised e, calls + 1, sleeps.reverse⟩
      else
        retryAux outcomes retryable backoff remaining (attempt + 1)
          (currentDelay * backoff) (calls + 1) (currentDelay :: sleeps)

/-- One call of a function wrapped by
`retry(max_attempts, delay, backoff, exceptions)`. -/
def retryRun {T : Type} (maxAttempts : Nat) (delay backoff : ℚ)
    (retryable : PyErr → Bool) (outcomes : Nat → Except PyErr T) : RetryTrace T :=
  retryAux outcomes retryable backoff maxAttempts 1 delay 0 []

/-! ## Port negotiation (`KindCluster._check_port_availability`, lines 249-313)

Port occupancy is modelled by a predicate `free : Nat → Bool`, the joint
verdict of the socket probe and the `lsof` corroboration, assumed stable
over the call.  The method mutates `self.http_port`, `self.https_port`
and `self.nodeport_start`; this becomes a `Ports` record threaded through. -/

/-- The three mutable port fields of a `KindCluster` instance. -/
structure Ports where
  http : Nat
  https : Nat
  nodeport : Nat
deriving DecidableEq, Repr

/-- The port classes the negotiator distinguishes; the raised
`ClusterOperationError` message names exactly one of them
(`"Unable to find free alternative for HTTP port …"`, etc.). -/
inductive PortClass where
  | http
  | https
  | nodePort
deriving DecidableEq, Repr

/-- Fixed HTTP alternatives, line 272 of `kind_cluster.py`. -/
def httpCandidates : List Nat := [8080, 8081, 8082, 8083]

/-- Fixed HTTPS alternatives, line 281. -/
def httpsCandidates : List Nat := [8443, 8444, 8445, 8446]

/-- Fixed NodePort alternatives, `range(30081, 30090)`, line 291. -/
def nodeportCandidates : List Nat := List.range' 30081 9

/-- One per-class block of `_check_port_availability`: keep a free desired
port; otherwise take the first free candidate, and when none is free the
`for` loop falls through leaving the port unchanged. -/
def negotiatePort (free : Nat → Bool) (desired : Nat) (candidates : List Nat) : Nat :=
  if free desired then desired
  else
    match candidates.find? (fun p => free p) with
    | some p => p
    | none => desired

/-- `_check_port_availability`: negotiate each class in turn (each block
mutates its field), then re-check the three final ports in the order
HTTP, HTTPS, NodePort and raise for the first one still occupied. -/
def checkPortAvailability (free : Nat → Bool) (s : Ports) : Except PortClass Ports :=
  let h := negotiatePort free s.http httpCandidates
  let hs := negotiatePort free s.https httpsCandidates
  let np := negotiatePort free s.nodeport nodeportCandidates
  if free h = false then .error .http
  else if free hs = false then .error .https
  else if free np = false then .error .nodePort
  else .ok ⟨h, hs, np⟩

/-! ## Python string primitives

Executable models of the `str` methods the orchestrator uses, over
`List Char` so that concrete instances reduce inside the kernel
(`String.replace` and friends use well-founded recursion and do not). -/

/-- Does `cs` start with `pattern`?  (Helper for `pyReplace`.) -/
def startsWithList : List Char → List Char → Bool
  | _, [] => true
  | [], _ :: _ => false
  | c :: cs, p :: ps => c == p && startsWithList cs ps

/-- Python `str.replace(pattern, repl)` for a non-empty `pattern`:
replace every non-overlapping occurrence, scanning left to right.
`fuel` bounds the scan (any `fuel ≥ length` gives the full result). -/
def replaceFuel (pattern repl : List Char) : Nat → List Char → List Char
  | _, [] => []
  | 0, rest => rest
  | fuel + 1, c :: cs =>
    if pattern ≠ [] && startsWithList (c :: cs) pattern then
      repl ++ replaceFuel pattern repl fuel (cs.drop (pattern.length - 1))
    else
      c :: replaceFuel pattern repl fuel cs

/-- Python `str.replace` (non-empty pattern). -/
def pyReplace (s pattern repl : String) : String :=
  ⟨replaceFuel pattern.toList repl.toList s.toList.length s.toList⟩

/-- Python `str.upper()` (ASCII data only in this code base). -/
def pyUpper (s : String) : String :=
  ⟨s.toList.map Char.toUpper⟩

/-- Python `str.lower()` (ASCII data only in this code base). -/
def pyLower (s : String) : String :=
  ⟨s.toList.map Char.toLower⟩

/-- Python `str.strip()`: remove leading and trailing whitespace. -/
def pyStrip (s : String) : String :=
  ⟨((s.toList.dropWhile Char.isWhitespace).reverse.dropWhile Char.isWhitespace).reverse⟩

/-- Python `"c" in s` for a single character. -/
def pyContains (s : String) (c : Char) : Bool :=
  s.toList.any (· == c)

/-- Split on a separator character, keeping empty pieces — the shape of
Python `str.split(sep)` used here only through `splitOn "."`. -/
def splitOnChar (sep : Char) : List Char → List (List Char)
  | [] => [[]]
  | c :: cs =>
    if c == sep then
      [] :: splitOnChar sep cs
    else
      match splitOnChar sep cs with
      | h :: t => (c :: h) :: t
      | [] => [[c]]

/-- Python `str.split()` with no argument: split on whitespace runs,
dropping empty pieces. -/
def pySplitWsAux : List Char → List Char → List String
  | [], acc => if acc.isEmpty then [] else [⟨acc.reverse⟩]
  | c :: cs, acc =>
    if c.isWhitespace then
      if acc.isEmpty then pySplitWsAux cs [] else (⟨acc.reverse⟩ : String) :: pySplitWsAux cs []
    else
      pySplitWsAux cs (c :: acc)

/-- Python `str.split()` (no argument). -/
def pySplitWs (s : String) : List String :=
  pySplitWsAux s.toList []

/-- Python `str.strip("'")`: remove leading and trailing apostrophes. -/
def pyStripQuote (s : String) : String :=
  ⟨((s.toList.dropWhile (· == Char.ofNat 39)).reverse.dropWhile (· == Char.ofNat 39)).reverse⟩

/-! ## Memory parsing (`KindCluster._parse_memory_to_bytes`, lines 373-399)

Python's `float(...)` on the numeric part is modelled over ℚ (every value
the method meets is a short decimal literal, exactly representable);
`int(...)` truncates toward zero.  A malformed numeric part makes
`float` raise `ValueError`. -/

/-- Digits of a decimal literal as a natural number. -/
def digitsVal (cs : List Char) : Nat :=
  cs.foldl (fun acc c => acc * 10 + (c.toNat - 48)) 0

/-- The exact value of an unsigned decimal literal: `mantissa / 10 ^ scale`.
(The idealization of Python's binary `float`: exact rational arithmetic.
Every value in the spec's examples is exactly representable either way.) -/
structure DecFrac where
  mantissa : Nat
  scale : Nat
deriving DecidableEq, Repr

/-- Python `float(s)` for the unsigned decimal literals this code feeds
it: digits with at most one dot (`"2"`, `"2.5"`, `"2."`, `".5"`);
anything else raises `ValueError` (`none`). -/
def parseFloat? (s : String) : Option DecFrac :=
  match splitOnChar '.' s.toList with
  | [w] =>
    if w ≠ [] && w.all Char.isDigit then some ⟨digitsVal w, 0⟩ else none
  | [w, f] =>
    if (w ≠ [] || f ≠ []) && w.all Char.isDigit && f.all Char.isDigit then
      some ⟨digitsVal w * 10 ^ f.length + digitsVal f, f.length⟩
    else none
  | _ => none

/-- Python `int(v * mult)` for a nonnegative decimal value `v`:
multiplication then truncation toward zero, which on nonnegative values
is division rounding down. -/
def pyIntScaled (v : DecFrac) (mult : Nat) : Int :=
  ((v.mantissa * mult) / 10 ^ v.scale : Nat)

/-- Result of `_parse_memory_to_bytes`: a byte count, or the
`ValueError` that `float(...)` raises on a malformed numeric part. -/
inductive MemParse where
  | bytes (n : Int)
  | valueError
deriving DecidableEq, Repr

/-- `_parse_memory_to_bytes`.  `none` stands for Python `None` (the
`if not memory_str` guard treats `None` and `""` alike); numeric
`int`/`float` inputs take the `isinstance` branch in the source and are
not modelled here, the orchestrator always passes strings. -/
def parse_memory_to_bytes (memory_str : Option String) : MemParse :=
  match memory_str with
  | none => .bytes 0
  | some s =>
    if s = "" then .bytes 0
    else
      let m := pyUpper (pyStrip s)
      if pyContains m 'G' then
        match parseFloat? (pyReplace (pyReplace m "GB" "") "G" "") with
        | some q => .bytes (pyIntScaled q (1024 * 1024 * 1024))
        | none => .valueError
      else if pyContains m 'M' then
        match parseFloat? (pyReplace (pyReplace m "MB" "") "M" "") with
        | some q => .bytes (pyIntScaled q (1024 * 1024))
        | none => .valueError
      else if pyContains m 'K' then
        match parseFloat? (pyReplace (pyReplace m "KB" "") "K" "") with
        | some q => .bytes (pyIntScaled q 1024)
        | none => .valueError
      else
        match parseFloat? m with
        | some q => .bytes (pyIntScaled q 1)
        | none => .valueError

/-! ## Health check (`KindCluster.check_health`, lines 885-948)

The single kubectl query (`check=False`) is modelled by the
`CommandResult` it returns; an exception from the query layer is the
`none` case (the method's outer `except` turns it into "unavailable"). -/

/-- Tokenisation shared by `check_health` and `wait_for_ready`:
`result.stdout.strip("'").split()`. -/
def statusTokens (stdout : String) : List String :=
  pySplitWs (pyStripQuote stdout)

/-- The health report: `status`, `issues`, and the `details` error field
(the per-node `details.nodes` map is determined by the same zip that
builds `issues` and is omitted from the record). -/
structure HealthReport where
  status : String
  issues : List String
  detailsError : Option String
deriving DecidableEq, Repr

/-- `check_health`.  `query = none` models an exception escaping the
kubectl call; `query = some r` is the returned `CommandResult`. -/
def check_health (query : Option CommandResult) : HealthReport :=
  match query with
  | none => ⟨"unavailable", ["Error checking cluster health"], some "exception"⟩
  | some r =>
    if r.success = false then
      ⟨"unavailable", ["Cannot connect to cluster"], some r.stderr⟩
    else
      let status_parts := statusTokens r.stdout
      if status_parts.isEmpty then
        ⟨"unavailable", ["No nodes found in cluster"], some "No nodes found"⟩
      else
        let node_names := status_parts.take (status_parts.length / 2)
        let node_statuses := status_parts.drop (status_parts.length / 2)
        let issues := (node_names.zip node_statuses).filterMap fun p =>
          if p.2 ≠ "True" then some ("Node " ++ p.1 ++ " not ready") else none
        ⟨if issues.isEmpty then "healthy" else "degraded", issues, none⟩

/-! ## Readiness polling (`KindCluster.wait_for_ready`, lines 752-806)

Time is abstracted into the finite sequence of poll results the loop
gets to see before the timeout elapses; each entry is one iteration
(`none` = an exception during the query, retried after the sleep). -/

/-- What one iteration of the `wait_for_ready` loop does with its query
result: succeed, keep waiting, or keep waiting after an error. -/
def wait_poll_step (r : CommandResult) : Bool :=
  if r.returncode ≠ 0 then false
  else (statusTokens r.stdout).all (fun status => status == "True")

/-- `wait_for_ready` over the poll results available before timeout:
returns `true` at the first iteration whose statuses are all `"True"`,
`false` when the polls are exhausted (timeout). -/
def wait_for_ready : List (Option CommandResult) → Bool
  | [] => false
  | none :: rest => wait_for_ready rest
  | some r :: rest =>
    if wait_poll_step r then true else wait_for_ready rest

/-! ## Resource limits (`KindCluster._apply_resource_limits`, lines 401-481)

Modelled as the list of `docker update` calls the method issues, in
order.  This follows the `MockCommandExecutor` branch of the source,
which updates every worker unconditionally; the real-executor branch
targets exactly the same container names but skips those absent from
`docker ps` — container-name targeting is identical in both. -/

/-- One `docker_client.update_container` call. -/
structure ContainerUpdate where
  container_id : String
  cpu_limit : String
  memory_limit : String
  memory_swap : String
deriving DecidableEq, Repr

/-- The configuration slice `_apply_resource_limits` reads.  The memory
fields are what `*_config.get("memory", "2GB")` returns, kept as
`Option` so the `None`-in-config case can be expressed. -/
structure ResourceConfig where
  clusterName : String
  workerNodes : Nat
  applyLimits : Bool
  cpMemory : Option String
  cpCpu : String
  workerMemory : Option String
  workerCpu : String
deriving DecidableEq, Repr

/-- Worker container name for loop index `i` (0-based):
`worker_suffix = "" if i == 0 else str(i + 1)`. -/
def workerContainerName (clusterName : String) (i : Nat) : String :=
  clusterName ++ "-worker" ++ (if i = 0 then "" else toString (i + 1))

/-- `_apply_resource_limits`: the control-plane update (its `try` block
swallows a `ValueError` from memory parsing) followed by the per-worker
updates.  Swap is always twice the memory. -/
def apply_resource_limits (cfg : ResourceConfig) : List ContainerUpdate :=
  if cfg.applyLimits = false then []
  else
    let cpUpdates :=
      match parse_memory_to_bytes cfg.cpMemory with
      | .bytes b =>
        [⟨cfg.clusterName ++ "-control-plane", cfg.cpCpu, toString b, toString (b * 2)⟩]
      | .valueError => []
    let workerUpdates :=
      match parse_memory_to_bytes cfg.workerMemory with
      | .bytes b =>
        (List.range cfg.workerNodes).map fun i =>
          ⟨workerContainerName cfg.clusterName i, cfg.workerCpu, toString b, toString (b * 2)⟩
      | .valueError => []
    cpUpdates ++ workerUpdates

/-! ## The command layer's `check=True` semantics (`core/command.py`)

`executor.execute(cmd, check=True)` raises `CommandExecutionError` on a
non-zero exit code; `KindClient.delete_cluster`/`create_cluster` use
this default. -/

/-- `execute(..., check=True)` on the result the subprocess produced. -/
def runChecked (r : CommandResult) : Except PyErr CommandResult :=
  if r.success then .ok r
  else .error (.commandExecution ("Command failed with exit code " ++ toString r.returncode))

/-- A human-readable message for an error value, Python `str(e)`. -/
def PyErr.msg : PyErr → String
  | .dockerNotRunning m => m
  | .kindNotInstalled m => m
  | .clusterOperation m => m
  | .commandExecution m => m
  | .valueError m => m
  | .other m => m

/-! ## `KindCluster.create` (lines 492-617), `delete` (619-656) and the
context manager (658-688)

One attempt of each method is modelled as a function of the answers the
external tools give, returning the Python outcome (return value or
exception), the `_created` flag after the call, and how many external
`kind create cluster` / `kind delete cluster` invocations were issued.
The `retry` decorator wraps these attempts, `retryRun` composes them. -/

/-- The external answers one `create()` attempt consumes. -/
structure CreateEnv where
  dockerRunning : Bool
  kindInstalled : Bool
  clusters : List String
  portCheck : Except PortClass Ports
  createResult : CommandResult
  ready : Bool
deriving Repr

deriving instance DecidableEq for Except

/-- Outcome of one attempt of a lifecycle method: the returned value or
the raised error, the `_created` flag after the call, and the number of
external create/delete invocations issued. -/
structure StepResult where
  outcome : Except PyErr Bool
  created : Bool
  invocations : Nat
deriving DecidableEq, Repr

/-- One attempt of `create()` (the body inside the `retry` decorator),
starting from ownership flag `created0`.  The already-exists branch is
lines 522-531: it returns `True` and sets `self._created = True`.
`env.createResult` is what `kind create cluster` exits with; under
`check=True` a non-zero exit raises, is caught by the generic handler
and re-raised as `ClusterOperationError` after a best-effort cleanup
delete. -/
def createStep (env : CreateEnv) (name : String) (created0 : Bool) : StepResult :=
  if env.dockerRunning = false then
    ⟨.error (.dockerNotRunning "Docker is not running or not accessible. Please start Docker Desktop."),
      created0, 0⟩
  else if env.kindInstalled = false then
    ⟨.error (.kindNotInstalled "Kind CLI tool is not installed or not in PATH."),
      created0, 0⟩
  else if name ∈ env.clusters then
    ⟨.ok true, true, 0⟩
  else
    match env.portCheck with
    | .error _ =>
      ⟨.error (.clusterOperation "Unable to find free alternative"), created0, 0⟩
    | .ok _ =>
      match runChecked env.createResult with
      | .error e =>
        ⟨.error (.clusterOperation ("Failed to create cluster: " ++ e.msg)), created0, 1⟩
      | .ok _ =>
        if env.ready = false then ⟨.ok false, created0, 1⟩
        else ⟨.ok true, true, 1⟩

/-- The external answers one `delete()` attempt consumes. -/
structure DeleteEnv where
  clusters : List String
  deleteResult : CommandResult
deriving Repr

/-- One attempt of `delete()` (the body inside the `retry` decorator).
Absent name: idempotent success, flag cleared, no external delete.
Present: `kind delete cluster` is invoked with `check=True`, so a
non-zero exit raises `CommandExecutionError`, which the method's
`except` wraps into `ClusterOperationError`. -/
def deleteStep (env : DeleteEnv) (name : String) (created0 : Bool) : StepResult :=
  if name ∈ env.clusters then
    match runChecked env.deleteResult with
    | .ok r =>
      if r.success then ⟨.ok true, false, 1⟩
      else ⟨.ok false, created0, 1⟩
    | .error e =>
      ⟨.error (.clusterOperation ("Failed to delete cluster: " ++ e.msg)), created0, 1⟩
  else
    ⟨.ok true, false, 0⟩

/-- `__exit__`: `delete()` is invoked exactly when `self._created` holds. -/
def exitInvokesDelete (created : Bool) : Bool :=
  created

/-- Scoped (context-manager) lifecycle for the C1 scenario: run one
`create()` attempt from a fresh instance (`_created = False`); if it
returns `True`, the scope body runs and `__exit__` fires, invoking
`delete()` iff the flag is set after `create()`. -/
def scopedExitDeletes (env : CreateEnv) (name : String) : Bool :=
  match createStep env name false with
  | ⟨.ok true, created, _⟩ => exitInvokesDelete created
  | _ => false

/-! ## `KindCluster.install_ingress` (lines 690-750)

The whole body sits inside `try: ... except Exception as e: return False`;
the unsupported-type `ValueError` raised at line 745 is therefore caught
by that handler. -/

/-- The external answers `install_ingress` consumes on its nginx path. -/
structure IngressEnv where
  applyResult : CommandResult
  waitResult : CommandResult
deriving Repr

/-- The `try` block of `install_ingress`: the nginx path applies the
manifest and waits for the controller; any other type raises
`ValueError`. -/
def install_ingress_body (env : IngressEnv) (ingress_type : String) : Except PyErr Bool :=
  if pyLower ingress_type = "nginx" then
    if env.applyResult.success = false then .ok false
    else if env.waitResult.success = false then .ok false
    else .ok true
  else
    .error (.valueError ("Unsupported ingress type: " ++ ingress_type ++ ". Supported types: nginx"))

/-- `install_ingress`: the `except Exception` handler turns every raised
error — the unsupported-type `ValueError` included — into `return False`. -/
def install_ingress (env : IngressEnv) (ingress_type : String) : Except PyErr Bool :=
  match install_ingress_body env ingress_type with
  | .ok b => .ok b
  | .error _ => .ok false

/-! ## Concrete instances used by witnesses and counterexamples -/

/-- The retryable-kind predicate of `create`/`delete`/`install_ingress`:
their `exceptions` tuples contain `ClusterOperationError` (plus, for
`create`, the two precondition errors). -/
def retryableW : PyErr → Bool
  | .dockerNotRunning _ => true
  | .kindNotInstalled _ => true
  | .clusterOperation _ => true
  | _ => false

/-- An operation that fails retryably twice and then returns 42. -/
def opFailTwice : Nat → Except PyErr Nat :=
  fun n => if n ≥ 3 then .ok 42 else .error (.clusterOperation "transient")

/-- An operation that always fails retryably, with distinguishable errors. -/
def opAlwaysFail : Nat → Except PyErr Nat :=
  fun n => .error (.clusterOperation ("attempt " ++ toString n))

/-- An operation that raises a non-retryable error at once. -/
def opValueError : Nat → Except PyErr Nat :=
  fun _ => .error (.valueError "bad input")

/-- Occupancy with every port occupied. -/
def allOccupied : Nat → Bool := fun _ => false

/-- Occupancy where exactly 8081, 8443 and 30000 are free. -/
def freeW : Nat → Bool :=
  fun p => decide (p = 8081 ∨ p = 8443 ∨ p = 30000)

/-- `create()` environment for a cluster name that already exists. -/
def c1Env : CreateEnv :=
  { dockerRunning := true
    kindInstalled := true
    clusters := ["demo"]
    portCheck := .ok ⟨80, 443, 30000⟩
    createResult := ⟨0, "", ""⟩
    ready := true }

/-- `delete()` environment: only cluster "a" exists, and the external
delete command exits non-zero. -/
def delEnvFail : DeleteEnv :=
  { clusters := ["a"], deleteResult := ⟨1, "", "boom"⟩ }

/-- Ingress environment where both external calls would succeed. -/
def ingEnv : IngressEnv :=
  { applyResult := ⟨0, "", ""⟩, waitResult := ⟨0, "", ""⟩ }

/-- A successful node query reporting two nodes, the second not ready. -/
def healthTwoNodes : CommandResult :=
  ⟨0, "'node-a node-b True False'", ""⟩

/-- A successful node query reporting no nodes at all (the jsonpath
quoting makes the empty answer `''`). -/
def emptyNodesResult : CommandResult :=
  ⟨0, "''", ""⟩

/-- A resource configuration with three workers. -/
def rcfgW : ResourceConfig :=
  { clusterName := "kind"
    workerNodes := 3
    applyLimits := true
    cpMemory := some "2GB"
    cpCpu := "1"
    workerMemory := some "1G"
    workerCpu := "2" }

/-- A resource configuration whose control-plane memory spec is empty. -/
def rcfgEmptyMem : ResourceConfig :=
  { clusterName := "kind"
    workerNodes := 1
    applyLimits := true
    cpMemory := some ""
    cpCpu := "1"
    workerMemory := some ""
    workerCpu := "1" }

/-! # Theorems -/

/-- Claim C2: for an operation wrapped by `retry` with `max_attempts = 3`,
initial delay `d` and backoff `b`: failing with a retryable kind exactly
twice then succeeding returns the success value after 3 invocations and
sleeps exactly `[d, d*b]`; failing with retryable kinds on every attempt
re-raises the last error unmodified after exactly 3 invocations and the
same 2 sleeps; a non-retryable error propagates at the first occurrence
with one invocation and no sleep. -/
theorem retry_c2 {α : Type} (d b : ℚ) (retryable : PyErr → Bool)
    (f g h : Nat → Except PyErr α) (v : α) (e₁ e₂ e₃ e₄ e₅ e₆ : PyErr)
    (hf1 : f 1 = .error e₁) (hf2 : f 2 = .error e₂) (hf3 : f 3 = .ok v)
    (hr1 : retryable e₁ = true) (hr2 : retryable e₂ = true)
    (hg1 : g 1 = .error e₃) (hg2 : g 2 = .error e₄) (hg3 : g 3 = .error e₅)
    (hr3 : retryable e₃ = true) (hr4 : retryable e₄ = true)
    (hh1 : h 1 = .error e₆) (hr6 : retryable e₆ = false) :
    retryRun 3 d b retryable f = ⟨.ok v, 3, [d, d * b]⟩ ∧
    retryRun 3 d b retryable g = ⟨.raised e₅, 3, [d, d * b]⟩ ∧
    retryRun 3 d b retryable h = ⟨.raised e₆, 1, []⟩ := by
  refine ⟨?_, ?_, ?_⟩ <;>
    simp [retryRun, retryAux, hf1, hf2, hf3, hr1, hr2, hg1, hg2, hg3, hr3, hr4, hh1, hr6]

/-- Witness for C2 at `d = 2`, `b = 3` with concrete operations. -/
theorem retry_c2_witness :
    retryRun 3 2 3 retryableW opFailTwice = ⟨.ok 42, 3, [2, 6]⟩ ∧
    retryRun 3 2 3 retryableW opAlwaysFail =
      ⟨.raised (.clusterOperation "attempt 3"), 3, [2, 6]⟩ ∧
    retryRun 3 2 3 retryableW opValueError = ⟨.raised (.valueError "bad input"), 1, []⟩ := by
  have h := retry_c2 2 3 retryableW opFailTwice opAlwaysFail opValueError 42
    (.clusterOperation "transient") (.clusterOperation "transient")
    (.clusterOperation "attempt 1") (.clusterOperation "attempt 2")
    (.clusterOperation "attempt 3") (.valueError "bad input")
    (by decide) (by decide) (by decide) (by decide) (by decide)
    (by decide) (by decide) (by decide) (by decide) (by decide)
    (by decide) (by decide)
  have hq : (2 : ℚ) * 3 = 6 := by norm_num
  rw [hq] at h
  exact h

/-- A free desired port is kept. -/
theorem negotiatePort_of_free (free : Nat → Bool) (d : Nat) (c : List Nat)
    (h : free d = true) : negotiatePort free d c = d := by
  simp [negotiatePort, h]

/-- An occupied desired port is replaced by the first free candidate. -/
theorem negotiatePort_of_found (free : Nat → Bool) (d p : Nat) (c : List Nat)
    (hd : free d = false) (hp : c.find? (fun q => free q) = some p) :
    negotiatePort free d c = p := by
  simp [negotiatePort, hd, hp]

/-- With the desired port and every candidate occupied, the `for` loop
falls through and the port is left unchanged (and still occupied). -/
theorem negotiatePort_exhausted (free : Nat → Bool) (d : Nat) (c : List Nat)
    (hd : free d = false) (hc : ∀ p ∈ c, free p = false) :
    negotiatePort free d c = d := by
  have : c.find? (fun q => free q) = none := by
    rw [List.find?_eq_none]
    intro p hp
    simp [hc p hp]
  simp [negotiatePort, hd, this]

/-- If the desired port or some candidate is free, the negotiated port
is free. -/
theorem negotiatePort_free_result (free : Nat → Bool) (d : Nat) (c : List Nat)
    (h : free d = true ∨ ∃ p ∈ c, free p = true) :
    free (negotiatePort free d c) = true := by
  rcases h with h | ⟨p, hp, hfp⟩
  · simp [negotiatePort, h]
  · by_cases hd : free d = true
    · simp [negotiatePort, hd]
    · replace hd : free d = false := by simpa using hd
      rcases hfind : c.find? (fun q => free q) with _ | q
      · rw [List.find?_eq_none] at hfind
        exact absurd hfp (by simpa using hfind p hp)
      · rw [negotiatePort_of_found free d q c hd hfind]
        simpa using List.find?_some hfind

/-- `_check_port_availability` succeeds exactly when all three negotiated
ports end up free, and then writes the negotiated ports back. -/
theorem checkPort_ok_iff (free : Nat → Bool) (s s' : Ports) :
    checkPortAvailability free s = .ok s' ↔
      (free (negotiatePort free s.http httpCandidates) = true ∧
       free (negotiatePort free s.https httpsCandidates) = true ∧
       free (negotiatePort free s.nodeport nodeportCandidates) = true ∧
       s' = ⟨negotiatePort free s.http httpCandidates,
             negotiatePort free s.https httpsCandidates,
             negotiatePort free s.nodeport nodeportCandidates⟩) := by
  cases h1 : free (negotiatePort free s.http httpCandidates) <;>
  cases h2 : free (negotiatePort free s.https httpsCandidates) <;>
  cases h3 : free (negotiatePort free s.nodeport nodeportCandidates) <;>
    simp [checkPortAvailability, h1, h2, h3, eq_comm]

/-- Claim C3 fails as stated: with the desired ports 80/443/30000 and
every port occupied, the NodePort class has its desired port and all of
30081..30089 occupied, yet the raised error names the HTTP class, not
NodePort (the final re-checks run in the order HTTP, HTTPS, NodePort and
raise at the first occupied one). -/
theorem checkPort_c3_counterexample :
    checkPortAvailability allOccupied ⟨80, 443, 30000⟩ = .error .http ∧
    PortClass.http ≠ PortClass.nodePort := by decide

/-- Claim C3 (amended): per port class, a free desired port is left
unchanged and an occupied one is replaced by the first free candidate of
the fixed list, written back into the configuration; when a class's
desired port and all its candidates are occupied a `ClusterOperationError`
is raised naming the first exhausted class in the order HTTP, HTTPS,
NodePort — in particular naming the class itself whenever every earlier
class negotiates a free port. -/
theorem checkPort_c3_amended (free : Nat → Bool) (s s' : Ports) :
    (checkPortAvailability free s = .ok s' →
       (free s.http = true → s'.http = s.http) ∧
       (free s.https = true → s'.https = s.https) ∧
       (free s.nodeport = true → s'.nodeport = s.nodeport)) ∧
    (∀ p, checkPortAvailability free s = .ok s' → free s.http = false →
       httpCandidates.find? (fun q => free q) = some p → s'.http = p) ∧
    (∀ p, checkPortAvailability free s = .ok s' → free s.https = false →
       httpsCandidates.find? (fun q => free q) = some p → s'.https = p) ∧
    (∀ p, checkPortAvailability free s = .ok s' → free s.nodeport = false →
       nodeportCandidates.find? (fun q => free q) = some p → s'.nodeport = p) ∧
    (free s.http = false → (∀ p ∈ httpCandidates, free p = false) →
       checkPortAvailability free s = .error .http) ∧
    (free (negotiatePort free s.http httpCandidates) = true →
       free s.https = false → (∀ p ∈ httpsCandidates, free p = false) →
       checkPortAvailability free s = .error .https) ∧
    (free (negotiatePort free s.http httpCandidates) = true →
       free (negotiatePort free s.https httpsCandidates) = true →
       free s.nodeport = false → (∀ p ∈ nodeportCandidates, free p = false) →
       checkPortAvailability free s = .error .nodePort) := by
  refine ⟨?_, ?_, ?_, ?_, ?_, ?_, ?_⟩
  · intro hok
    obtain ⟨-, -, -, hs'⟩ := (checkPort_ok_iff free s s').mp hok
    subst hs'
    exact ⟨fun h => negotiatePort_of_free _ _ _ h,
           fun h => negotiatePort_of_free _ _ _ h,
           fun h => negotiatePort_of_free _ _ _ h⟩
  · intro p hok hocc hfind
    obtain ⟨-, -, -, hs'⟩ := (checkPort_ok_iff free s s').mp hok
    subst hs'
    exact negotiatePort_of_found _ _ _ _ hocc hfind
  · intro p hok hocc hfind
    obtain ⟨-, -, -, hs'⟩ := (checkPort_ok_iff free s s').mp hok
    subst hs'
    exact negotiatePort_of_found _ _ _ _ hocc hfind
  · intro p hok hocc hfind
    obtain ⟨-, -, -, hs'⟩ := (checkPort_ok_iff free s s').mp hok
    subst hs'
    exact negotiatePort_of_found _ _ _ _ hocc hfind
  · intro hocc hall
    have h := negotiatePort_exhausted free s.http httpCandidates hocc hall
    simp [checkPortAvailability, h, hocc]
  · intro hfree1 hocc hall
    have h := negotiatePort_exhausted free s.https httpsCandidates hocc hall
    simp [checkPortAvailability, h, hocc, hfree1]
  · intro hfree1 hfree2 hocc hall
    have h := negotiatePort_exhausted free s.nodeport nodeportCandidates hocc hall
    simp [checkPortAvailability, h, hocc, hfree1, hfree2]

/-- Witness for the amended C3: with 80 occupied and 8081 the first free
HTTP candidate (8080 occupied too), negotiation selects 8081, keeps the
free 443-alternative 8443 and the free NodePort 30000. -/
theorem checkPort_c3_witness :
    checkPortAvailability freeW ⟨80, 443, 30000⟩ = .ok ⟨8081, 8443, 30000⟩ ∧
    (⟨8081, 8443, 30000⟩ : Ports).http = 8081 := by
  refine ⟨by decide, ?_⟩
  exact (checkPort_c3_amended freeW ⟨80, 443, 30000⟩ ⟨8081, 8443, 30000⟩).2.1 8081
    (by decide) (by decide) (by decide)

/-- Claim C4: `check_health` reports "unavailable" when the node query
fails (or raises), "unavailable" with the "no nodes found" issue when the
query succeeds with zero nodes, and otherwise one issue
`"Node {name} not ready"` per node whose Ready condition differs from
`"True"`, with overall status "degraded" exactly when an issue exists and
"healthy" with no issues otherwise; for two nodes of which exactly the
second reports "False" the result is degraded with exactly that one
issue. -/
theorem check_health_c4 (r : CommandResult) (names statuses : List String) (n₁ n₂ : String) :
    (check_health none).status = "unavailable" ∧
    (r.success = false → check_health (some r) =
      ⟨"unavailable", ["Cannot connect to cluster"], some r.stderr⟩) ∧
    (r.success = true → statusTokens r.stdout = [] →
      check_health (some r) =
        ⟨"unavailable", ["No nodes found in cluster"], some "No nodes found"⟩) ∧
    (r.success = true → statusTokens r.stdout = names ++ statuses →
      names.length = statuses.length → names ≠ [] →
      (check_health (some r)).issues =
        (names.zip statuses).filterMap
          (fun p => if p.2 ≠ "True" then some ("Node " ++ p.1 ++ " not ready") else none) ∧
      (check_health (some r)).status =
        (if (check_health (some r)).issues = [] then "healthy" else "degraded")) ∧
    (r.success = true → statusTokens r.stdout = [n₁, n₂, "True", "False"] →
      check_health (some r) = ⟨"degraded", ["Node " ++ n₂ ++ " not ready"], none⟩) := by
  refine ⟨rfl, ?_, ?_, ?_, ?_⟩
  · intro hfail
    simp [check_health, hfail]
  · intro hok htok
    simp [check_health, hok, htok]
  · intro hok htok hlen hne
    have hempty : (names ++ statuses).isEmpty = false := by
      cases names with
      | nil => exact absurd rfl hne
      | cons a l => simp
    have hhalf : (names ++ statuses).length / 2 = names.length := by
      rw [List.length_append, ← hlen]
      omega
    simp only [check_health, hok, Bool.true_eq_false, if_false, htok, hempty,
      hhalf, List.take_left, List.drop_left]
    refine ⟨rfl, ?_⟩
    generalize List.filterMap _ (names.zip statuses) = L
    cases L <;> simp
  · intro hok htok
    simp [check_health, hok, htok, List.take_succ_cons, List.drop_succ_cons]

/-- Witness for C4: a successful query reporting nodes `node-a node-b`
with Ready conditions `True False` yields a degraded report with exactly
one issue. -/
theorem check_health_c4_witness :
    CommandResult.success healthTwoNodes = true ∧
    statusTokens healthTwoNodes.stdout = ["node-a", "node-b", "True", "False"] ∧
    check_health (some healthTwoNodes) = ⟨"degraded", ["Node node-b not ready"], none⟩ := by
  refine ⟨by decide, by decide, ?_⟩
  exact (check_health_c4 healthTwoNodes [] [] "node-a" "node-b").2.2.2.2
    (by decide) (by decide)

/-- Claim C9: when a poll of `wait_for_ready` gets a successful query
whose output tokenises to zero Ready conditions, the `all`-check is
vacuously satisfied and `wait_for_ready` returns `True` on that
iteration — a cluster reporting no nodes at all counts as ready. -/
theorem wait_for_ready_c9 (r : CommandResult) (rest : List (Option CommandResult))
    (hok : r.success = true) (hempty : statusTokens r.stdout = []) :
    wait_for_ready (some r :: rest) = true := by
  have hrc : r.returncode = 0 := by
    simpa [CommandResult.success] using hok
  simp [wait_for_ready, wait_poll_step, hrc, hempty]

/-- Witness for C9: a first poll answering `''` (the jsonpath result for
an empty node list) makes `wait_for_ready` return `True` at once. -/
theorem wait_for_ready_c9_witness :
    CommandResult.success emptyNodesResult = true ∧
    statusTokens emptyNodesResult.stdout = [] ∧
    wait_for_ready [some emptyNodesResult] = true := by
  refine ⟨by decide, by decide, ?_⟩
  exact wait_for_ready_c9 emptyNodesResult [] (by decide) (by decide)

/-- Claim C5: the memory parser maps `G`/`GB`, `M`/`MB`, `K`/`KB`
suffixes (case-insensitive) to bytes with binary multipliers and treats
an unsuffixed numeric string as already-bytes; in particular "2GB" is
2147483648, "512MB" is 536870912 and "1024" is 1024. -/
theorem parse_memory_c5 :
    parse_memory_to_bytes (some "2GB") = .bytes 2147483648 ∧
    parse_memory_to_bytes (some "512MB") = .bytes 536870912 ∧
    parse_memory_to_bytes (some "1024") = .bytes 1024 ∧
    parse_memory_to_bytes (some "2G") = .bytes 2147483648 ∧
    parse_memory_to_bytes (some "2gb") = .bytes 2147483648 ∧
    parse_memory_to_bytes (some "2g") = .bytes 2147483648 ∧
    parse_memory_to_bytes (some "512M") = .bytes 536870912 ∧
    parse_memory_to_bytes (some "512mb") = .bytes 536870912 ∧
    parse_memory_to_bytes (some "512m") = .bytes 536870912 ∧
    parse_memory_to_bytes (some "3KB") = .bytes 3072 ∧
    parse_memory_to_bytes (some "3K") = .bytes 3072 ∧
    parse_memory_to_bytes (some "3kb") = .bytes 3072 ∧
    parse_memory_to_bytes (some "3k") = .bytes 3072 := by
  decide

/-- Claim C10: the memory parser is total on empty input — `None` and
`""` both yield 0 bytes rather than raising — and an empty memory spec
flows into a `docker update` call with memory limit "0" and swap limit
"0" (swap being twice the memory). -/
theorem parse_memory_c10 (cfg : ResourceConfig) :
    parse_memory_to_bytes none = .bytes 0 ∧
    parse_memory_to_bytes (some "") = .bytes 0 ∧
    (cfg.applyLimits = true → (cfg.cpMemory = none ∨ cfg.cpMemory = some "") →
      (apply_resource_limits cfg).head? =
        some ⟨cfg.clusterName ++ "-control-plane", cfg.cpCpu, "0", "0"⟩) := by
  refine ⟨by decide, by decide, ?_⟩
  intro hA hmem
  rcases hmem with h | h <;>
    simp [apply_resource_limits, hA, h, parse_memory_to_bytes] <;> decide

/-- Witness for C10: the configuration with empty memory specs produces
a control-plane update with zero memory and zero swap. -/
theorem parse_memory_c10_witness :
    rcfgEmptyMem.applyLimits = true ∧
    (apply_resource_limits rcfgEmptyMem).head? = some ⟨"kind-control-plane", "1", "0", "0"⟩ := by
  refine ⟨by decide, ?_⟩
  exact (parse_memory_c10 rcfgEmptyMem).2.2 (by decide) (Or.inr (by decide))

/-- Claim C8: for `workerNodes = N ≥ 1` the resource limiter targets
exactly `{clusterName}-control-plane`, then `{clusterName}-worker` for
loop index 0, then `{clusterName}-worker{i+1}` for each index `i ≥ 1` —
the enumeration `worker`, `worker2`, …, `workerN`. -/
theorem resource_limits_c8 (cfg : ResourceConfig) (bcp bw : Int)
    (hN : 1 ≤ cfg.workerNodes) (hA : cfg.applyLimits = true)
    (hcp : parse_memory_to_bytes cfg.cpMemory = .bytes bcp)
    (hw : parse_memory_to_bytes cfg.workerMemory = .bytes bw) :
    (apply_resource_limits cfg).map (fun u => u.container_id) =
      (cfg.clusterName ++ "-control-plane") :: (cfg.clusterName ++ "-worker") ::
        (List.range (cfg.workerNodes - 1)).map
          (fun j => cfg.clusterName ++ "-worker" ++ toString (j + 2)) := by
  obtain ⟨m, hm⟩ : ∃ m, cfg.workerNodes = m + 1 :=
    ⟨cfg.workerNodes - 1, by omega⟩
  simp only [apply_resource_limits, hA, Bool.true_eq_false, if_false, hcp, hw, hm,
    List.range_succ_eq_map, List.map_cons, List.map_append, List.map_map,
    Nat.add_sub_cancel]
  refine congrArg (List.cons _) (congrArg₂ List.cons ?_ ?_)
  · simp [workerContainerName]
  · apply List.map_congr_left
    intro j _
    simp [workerContainerName, Function.comp, Nat.succ_eq_add_one]

/-- Witness for C8 at three workers: the targeted containers are
`kind-control-plane`, `kind-worker`, `kind-worker2`, `kind-worker3`. -/
theorem resource_limits_c8_witness :
    1 ≤ rcfgW.workerNodes ∧
    (apply_resource_limits rcfgW).map (fun u => u.container_id) =
      ["kind-control-plane", "kind-worker", "kind-worker2", "kind-worker3"] := by
  refine ⟨by decide, ?_⟩
  have h := resource_limits_c8 rcfgW 2147483648 1073741824
    (by decide) (by decide) (by decide) (by decide)
  simpa using h

/-- Claim C6: `delete()` on a name absent from the provisioning tool's
cluster list returns success with zero external delete invocations and
clears the ownership flag; on a present name the external delete is
invoked once, and a failing invocation (non-zero exit, raised by the
`check=True` command layer) surfaces as `ClusterOperationError`. -/
theorem delete_c6 (env : DeleteEnv) (name : String) (created0 : Bool) :
    (name ∉ env.clusters → deleteStep env name created0 = ⟨.ok true, false, 0⟩) ∧
    (name ∈ env.clusters →
      (deleteStep env name created0).invocations = 1 ∧
      (env.deleteResult.success = false →
        ∃ m, (deleteStep env name created0).outcome = .error (.clusterOperation m))) := by
  constructor
  · intro habs
    simp [deleteStep, habs]
  · intro hmem
    by_cases hfail : env.deleteResult.success = false
    · refine ⟨?_, fun _ => ?_⟩
      · simp [deleteStep, hmem, runChecked, hfail]
      · refine ⟨"Failed to delete cluster: " ++
          (PyErr.commandExecution
            ("Command failed with exit code " ++ toString env.deleteResult.returncode)).msg, ?_⟩
        simp [deleteStep, hmem, runChecked, hfail]
    · replace hfail : env.deleteResult.success = true := by simpa using hfail
      exact ⟨by simp [deleteStep, hmem, runChecked, hfail], by simp [hfail]⟩

/-- Witness for C6: deleting the absent name "b" is a no-op success, and
deleting the present name "a" with a failing external delete raises a
`ClusterOperationError` after one invocation. -/
theorem delete_c6_witness :
    deleteStep delEnvFail "b" true = ⟨.ok true, false, 0⟩ ∧
    (deleteStep delEnvFail "a" true).invocations = 1 ∧
    (∃ m, (deleteStep delEnvFail "a" true).outcome = .error (.clusterOperation m)) := by
  obtain ⟨h1, -⟩ := delete_c6 delEnvFail "b" true
  obtain ⟨-, h2⟩ := delete_c6 delEnvFail "a" true
  obtain ⟨h2a, h2b⟩ := h2 (by decide)
  exact ⟨h1 (by decide), h2a, h2b (by decide)⟩

/-- Claim C1 states that `create()` on an already-listed cluster name
leaves the ownership flag unset, so that leaving the scope does not
delete the pre-existing cluster.  The code (line 530) sets
`self._created = True` on that branch, so the scoped lifecycle does
invoke `delete()` on exit: in the environment where "demo" already
exists, `create()` returns `True` with zero external create invocations
but with the flag set, and the scope exit invokes `delete()` — contrary
to the claim, the inline comment `Track if the cluster was created by
this instance`, the `__exit__` docstring and the spec. -/
theorem create_c1_code_eval :
    createStep c1Env "demo" false = ⟨.ok true, true, 0⟩ ∧
    scopedExitDeletes c1Env "demo" = true := by decide

/-- Claim C7 states that `install_ingress` with an unsupported type
raises `ValueError` to the caller.  The `raise ValueError(...)` (line
745) sits inside the method's `try`, whose `except Exception` handler
(line 748) returns `False` instead — the documented `ValueError` never
reaches the caller (and, being swallowed, is also never retried). -/
theorem install_ingress_c7_code_eval :
    install_ingress_body ingEnv "traefik" =
      .error (.valueError "Unsupported ingress type: traefik. Supported types: nginx") ∧
    install_ingress ingEnv "traefik" = .ok false := by decide

end KindClusterSetup
